import Mathlib

/-!
Verification development for the sakai-bot monitoring pipeline.

Shallow embedding of the core components of the repository:
* `models.py` — notifiable items and their `dedup_key` / `content_hash`
  computed properties (SHA-256 based fingerprints);
* `db/notification_store.py` — the dedup store (`has_been_sent`,
  `mark_as_sent`) over a keyed table;
* `auth/sakai_session.py` — the session manager (`login` retry loop,
  `get` with one-shot re-authentication, `logout`, context manager);
* `scrapers/exams.py` — the heuristic exam detector.

Machine-level details (Supabase client, HTTP transport, regex date
parsing) are modelled by explicit parameters: query outcomes are
`Except` values, network responses and extraction heuristics are
function arguments.
-/

namespace SakaiBot

/-- Substring test on character lists: Python's `needle in hay`. -/
def containsSub (hay needle : List Char) : Bool :=
  match hay with
  | [] => needle.isEmpty
  | _ :: rest => needle.isPrefixOf hay || containsSub rest needle

/-- Substring test on strings: Python's `needle in hay`. -/
def strContains (hay needle : String) : Bool :=
  containsSub hay.data needle.data

/-- Python's rendering of an optional value inside an f-string:
`None` prints as `"None"`, a present value prints as itself (the
value is carried here already in its `str()` rendering). -/
def pyOptStr : Option String → String
  | none => "None"
  | some s => s

/-! ## SHA-256 over byte lists (bytes are `Nat` values < 256)

Faithful embedding of the hash behind `hashlib.sha256` as used by
`models.py`. Validated below against the standard test vectors for
the empty string and `"abc"`. -/

/-- UTF-8 encoding of a single character (Python `str.encode()`). -/
def utf8Char (c : Char) : List Nat :=
  let n := c.toNat
  if n < 0x80 then [n]
  else if n < 0x800 then
    [0xC0 ||| (n >>> 6), 0x80 ||| (n &&& 0x3F)]
  else if n < 0x10000 then
    [0xE0 ||| (n >>> 12), 0x80 ||| ((n >>> 6) &&& 0x3F), 0x80 ||| (n &&& 0x3F)]
  else
    [0xF0 ||| (n >>> 18), 0x80 ||| ((n >>> 12) &&& 0x3F),
     0x80 ||| ((n >>> 6) &&& 0x3F), 0x80 ||| (n &&& 0x3F)]

/-- UTF-8 encoding of a string (Python `str.encode()`). -/
def strBytes (s : String) : List Nat :=
  s.data.flatMap utf8Char

/-- 32-bit right rotation (input assumed < 2^32). -/
def rotr (n x : Nat) : Nat :=
  (x >>> n) ||| ((x <<< (32 - n)) % 2 ^ 32)

def bsig0 (x : Nat) : Nat := rotr 2 x ^^^ rotr 13 x ^^^ rotr 22 x
def bsig1 (x : Nat) : Nat := rotr 6 x ^^^ rotr 11 x ^^^ rotr 25 x
def ssig0 (x : Nat) : Nat := rotr 7 x ^^^ rotr 18 x ^^^ (x >>> 3)
def ssig1 (x : Nat) : Nat := rotr 17 x ^^^ rotr 19 x ^^^ (x >>> 10)
def ch (x y z : Nat) : Nat := (x &&& y) ^^^ ((x ^^^ 0xFFFFFFFF) &&& z)
def maj (x y z : Nat) : Nat := (x &&& y) ^^^ (x &&& z) ^^^ (y &&& z)

/-- SHA-256 round constants (FIPS 180-4, written in decimal). -/
def K256 : List Nat :=
  [1116352408, 1899447441, 3049323471, 3921009573, 961987163,
   1508970993, 2453635748, 2870763221, 3624381080, 310598401,
   607225278, 1426881987, 1925078388, 2162078206, 2614888103,
   3248222580, 3835390401, 4022224774, 264347078, 604807628,
   770255983, 1249150122, 1555081692, 1996064986, 2554220882,
   2821834349, 2952996808, 3210313671, 3336571891, 3584528711,
   113926993, 338241895, 666307205, 773529912, 1294757372,
   1396182291, 1695183700, 1986661051, 2177026350, 2456956037,
   2730485921, 2820302411, 3259730800, 3345764771, 3516065817,
   3600352804, 4094571909, 275423344, 430227734, 506948616,
   659060556, 883997877, 958139571, 1322822218, 1537002063,
   1747873779, 1955562222, 2024104815, 2227730452, 2361852424,
   2428436474, 2756734187, 3204031479, 3329325298]

/-- SHA-256 initial hash state (FIPS 180-4, written in decimal). -/
def H256 : List Nat :=
  [1779033703, 3144134277, 1013904242, 2773480762,
   1359893119, 2600822924, 528734635, 1541459225]

/-- Big-endian byte rendering of a value, `n` bytes wide. -/
def toBytesBE (n v : Nat) : List Nat :=
  (List.range n).map (fun i => (v >>> (8 * (n - 1 - i))) % 256)

/-- Big-endian 32-bit word from (up to) four bytes. -/
def beWord (bs : List Nat) : Nat :=
  bs.foldl (fun acc b => acc * 256 + b) 0

/-- SHA-256 message padding: append `0x80`, zero bytes to 56 mod 64,
then the bit length as 8 big-endian bytes. -/
def sha256Pad (msg : List Nat) : List Nat :=
  msg ++ [0x80] ++ List.replicate ((119 - msg.length % 64) % 64) 0
      ++ toBytesBE 8 (8 * msg.length)

/-- Split a byte list into 64-byte blocks (structural recursion on a
fuel bound so the kernel can evaluate it). -/
def chunks64Go : Nat → List Nat → List (List Nat)
  | 0, _ => []
  | _, [] => []
  | fuel + 1, b :: rest => (b :: rest).take 64 :: chunks64Go fuel ((b :: rest).drop 64)

/-- Split a byte list into 64-byte blocks. -/
def chunks64 (l : List Nat) : List (List Nat) := chunks64Go l.length l

/-- One SHA-256 compression round on the 8-word state. -/
def sha256Step (st : List Nat) (kw : Nat × Nat) : List Nat :=
  match st with
  | [a, b, c, d, e, f, g, h] =>
    let t1 := (h + bsig1 e + ch e f g + kw.1 + kw.2) % 2 ^ 32
    let t2 := (bsig0 a + maj a b c) % 2 ^ 32
    [(t1 + t2) % 2 ^ 32, a, b, c, (d + t1) % 2 ^ 32, e, f, g]
  | st => st

/-- Message schedule: extend the 16 block words to 64. -/
def sha256Schedule (w16 : List Nat) : List Nat :=
  (List.range 48).foldl
    (fun w j =>
      let t := j + 16
      w ++ [(ssig1 (w.getD (t - 2) 0) + w.getD (t - 7) 0
             + ssig0 (w.getD (t - 15) 0) + w.getD (t - 16) 0) % 2 ^ 32])
    w16

/-- SHA-256 compression of one 64-byte block into the running state. -/
def sha256Block (H : List Nat) (block : List Nat) : List Nat :=
  let w16 := (List.range 16).map (fun i => beWord ((block.drop (4 * i)).take 4))
  let W := sha256Schedule w16
  let st := (K256.zip W).foldl sha256Step H
  (H.zip st).map (fun p => (p.1 + p.2) % 2 ^ 32)

/-- SHA-256 digest (32 bytes) of a byte list. -/
def sha256 (msg : List Nat) : List Nat :=
  ((chunks64 (sha256Pad msg)).foldl sha256Block H256).flatMap (toBytesBE 4)

/-- Lower-case hexadecimal digit. -/
def hexChar (n : Nat) : Char :=
  if n < 10 then Char.ofNat (48 + n) else Char.ofNat (87 + n)

/-- Lower-case hexadecimal rendering of a byte list
(Python `hashlib.sha256(...).hexdigest()`). -/
def bytesToHex (bs : List Nat) : String :=
  String.mk (bs.flatMap (fun b => [hexChar (b / 16), hexChar (b % 16)]))

/-- Python slice `s[:n]` (by code points, like Lean characters). -/
def strTake (s : String) (n : Nat) : String :=
  String.mk (s.data.take n)

/-- `sha256(content_str.encode()).hexdigest()[:16]` from `models.py`. -/
def fingerprint (s : String) : String :=
  strTake (bytesToHex (sha256 (strBytes s))) 16

end SakaiBot

namespace SakaiBot

/-! ## Data models (`models.py`)

`datetime` and `float` fields are carried in their Python `str()`
renderings, since the only use the core makes of them is inside
f-strings feeding the fingerprint. -/

/-- `NotificationType` enum from `models.py`. -/
inductive NotificationType where
  | announcement
  | assignment
  | exam
deriving DecidableEq, Repr

/-- `AssignmentStatus` enum from `models.py`. -/
inductive AssignmentStatus where
  | not_started
  | in_progress
  | submitted
  | graded
  | late
  | closed
deriving DecidableEq, Repr

/-- Python `f"{status}"` rendering of an `AssignmentStatus` member
(CPython ≥ 3.11 renders a str-mixin enum as `ClassName.member`). -/
def statusStr : AssignmentStatus → String
  | .not_started => "AssignmentStatus.not_started"
  | .in_progress => "AssignmentStatus.in_progress"
  | .submitted => "AssignmentStatus.submitted"
  | .graded => "AssignmentStatus.graded"
  | .late => "AssignmentStatus.late"
  | .closed => "AssignmentStatus.closed"

/-- `Announcement` model from `models.py`. -/
structure Announcement where
  id : String
  course_code : String
  course_title : String
  title : String
  content : String
  author : Option String
  posted_at : Option String
  url : Option String
deriving DecidableEq, Repr

/-- `Announcement.dedup_key` computed property. -/
def Announcement.dedup_key (a : Announcement) : String :=
  "announcement:" ++ a.id

/-- `Announcement.content_hash` computed property:
`sha256(f"{title}|{content}".encode()).hexdigest()[:16]`. -/
def Announcement.content_hash (a : Announcement) : String :=
  fingerprint (a.title ++ "|" ++ a.content)

/-- `Assignment` model from `models.py`. -/
structure Assignment where
  id : String
  course_code : String
  course_title : String
  title : String
  description : Option String
  due_date : Option String
  open_date : Option String
  close_date : Option String
  status : AssignmentStatus
  max_points : Option String
  url : Option String
deriving DecidableEq, Repr

/-- `Assignment.dedup_key` computed property. -/
def Assignment.dedup_key (g : Assignment) : String :=
  "assignment:" ++ g.id

/-- `Assignment.content_hash` computed property:
`sha256(f"{title}|{due_date}|{status}".encode()).hexdigest()[:16]`. -/
def Assignment.content_hash (g : Assignment) : String :=
  fingerprint (g.title ++ "|" ++ pyOptStr g.due_date ++ "|" ++ statusStr g.status)

/-- `Exam` model from `models.py`. -/
structure Exam where
  id : String
  course_code : String
  course_title : String
  title : String
  exam_type : String
  exam_date : Option String
  exam_time : Option String
  location : Option String
  duration_minutes : Option Nat
  source : String
  source_id : Option String
  url : Option String
  notes : Option String
deriving DecidableEq, Repr

/-- `Exam.dedup_key` computed property. -/
def Exam.dedup_key (e : Exam) : String :=
  "exam:" ++ e.id

/-- `Exam.content_hash` computed property:
`sha256(f"{title}|{exam_date}|{exam_time}".encode()).hexdigest()[:16]`. -/
def Exam.content_hash (e : Exam) : String :=
  fingerprint (e.title ++ "|" ++ pyOptStr e.exam_date ++ "|" ++ pyOptStr e.exam_time)

/-- `NotifiableItem = Union[Announcement, Assignment, Exam]` from
`notification_store.py`. -/
inductive NotifiableItem where
  | ann (a : Announcement)
  | asg (g : Assignment)
  | exm (e : Exam)
deriving DecidableEq, Repr

/-- Dispatch of the `dedup_key` computed property over the union. -/
def NotifiableItem.dedup_key : NotifiableItem → String
  | .ann a => a.dedup_key
  | .asg g => g.dedup_key
  | .exm e => e.dedup_key

/-- Dispatch of the `content_hash` computed property over the union. -/
def NotifiableItem.content_hash : NotifiableItem → String
  | .ann a => a.content_hash
  | .asg g => g.content_hash
  | .exm e => e.content_hash

/-- Dispatch of the `title` field over the union. -/
def NotifiableItem.title : NotifiableItem → String
  | .ann a => a.title
  | .asg g => g.title
  | .exm e => e.title

/-- Dispatch of the `notification_type` property over the union. -/
def NotifiableItem.notification_type : NotifiableItem → NotificationType
  | .ann _ => .announcement
  | .asg _ => .assignment
  | .exm _ => .exam

/-- `getattr(item, "course_code", None)` from `mark_as_sent` (every
variant has the attribute). -/
def NotifiableItem.course_code : NotifiableItem → Option String
  | .ann a => some a.course_code
  | .asg g => some g.course_code
  | .exm e => some e.course_code

/-- Spec-side fingerprint: first 16 hex characters of a SHA-256 hash
over the listed fields joined with the `"|"` separator (from §4.1 of
the spec, for comparison with the model definitions above). -/
def specFingerprint (fields : List String) : String :=
  strTake (bytesToHex (sha256 (strBytes (String.intercalate "|" fields)))) 16

/-! ## Dedup store (`db/notification_store.py`)

The Supabase table is a list of rows; the `UNIQUE (dedup_key)`
constraint of the schema is the `Nodup` hypothesis where needed.
A storage-layer outcome is an `Except` value: `.error` is a raised
exception in the `try` block. -/

/-- `SentNotification` record from `models.py` (`sent_at` as a
timestamp number). -/
structure SentNotification where
  notification_type : NotificationType
  dedup_key : String
  content_hash : String
  course_code : Option String
  title : String
  sent_at : Nat
deriving DecidableEq, Repr

/-- `select("dedup_key, content_hash").eq("dedup_key", key)` —
rows of the table whose `dedup_key` matches. -/
def queryByKey (t : List SentNotification) (key : String) : List SentNotification :=
  t.filter (fun r => r.dedup_key == key)

/-- `NotificationStore.has_been_sent`, parameterised by the query
outcome: an exception fails open to `false`; no row means never sent;
a changed hash on the first row means updated content (`false`);
otherwise `true`. -/
def has_been_sent (q : Except Unit (List SentNotification))
    (item : NotifiableItem) : Bool :=
  match q with
  | .error _ => false
  | .ok [] => false
  | .ok (existing :: _) =>
    if existing.content_hash != item.content_hash then false else true

/-- `has_been_sent` against a table whose query succeeds. -/
def hasBeenSentOn (t : List SentNotification) (item : NotifiableItem) : Bool :=
  has_been_sent (.ok (queryByKey t item.dedup_key)) item

/-- The `SentNotification` record built inside `mark_as_sent`. -/
def recordOf (item : NotifiableItem) (now : Nat) : SentNotification :=
  ⟨item.notification_type, item.dedup_key, item.content_hash,
   item.course_code, item.title, now⟩

/-- Postgres `upsert` with `on_conflict="dedup_key"`: replace the
conflicting row when the key is present, append otherwise. -/
def upsert (t : List SentNotification) (r : SentNotification) :
    List SentNotification :=
  if t.any (fun x => x.dedup_key == r.dedup_key) then
    t.map (fun x => if x.dedup_key == r.dedup_key then r else x)
  else t ++ [r]

/-- `NotificationStore.mark_as_sent` success path: upsert the record
keyed by `dedup_key`. -/
def mark_as_sent (t : List SentNotification) (item : NotifiableItem)
    (now : Nat) : List SentNotification :=
  upsert t (recordOf item now)

/-- Number of stored rows carrying a given key. -/
def countKey (t : List SentNotification) (key : String) : Nat :=
  (t.filter (fun r => r.dedup_key == key)).length

/-! ## Session manager (`auth/sakai_session.py`)

The HTTP transport is a parameter: `o : Nat → AttemptResult` is the
outcome of the n-th call of `_attempt_login` (1-based), and
`net : Nat → Response` is the response of the n-th `session.get`
issued inside one `get` call (0-based). -/

/-- Decidable equality of `Except` outcomes, used throughout the
observable results below. -/
instance exceptDecEq {ε α : Type} [DecidableEq ε] [DecidableEq α] :
    DecidableEq (Except ε α)
  | .ok a, .ok b =>
    if h : a = b then .isTrue (by rw [h])
    else .isFalse (fun hc => h (Except.ok.inj hc))
  | .ok _, .error _ => .isFalse (fun hc => Except.noConfusion hc)
  | .error _, .ok _ => .isFalse (fun hc => Except.noConfusion hc)
  | .error a, .error b =>
    if h : a = b then .isTrue (by rw [h])
    else .isFalse (fun hc => h (Except.error.inj hc))

/-- Outcome of one `_attempt_login` call: success, a structural or
credential failure (raises `SakaiAuthError`), or a transient network
failure (`ConnectionError` / `Timeout`, tagged with a cause id). -/
inductive AttemptResult where
  | success
  | structural
  | transient (cause : Nat)
deriving DecidableEq, Repr

/-- Error surfaced by `login`: a structural/credential
`SakaiAuthError`, or the final `SakaiAuthError` wrapping the last
transient cause after the retry budget is exhausted. -/
inductive LoginErr where
  | structural
  | exhausted (last : Nat)
deriving DecidableEq, Repr

/-- Result of a `login` call together with the backoff sleeps it
performed (in seconds), in order. -/
structure LoginRun where
  result : Except LoginErr Unit
  sleeps : List Nat
deriving DecidableEq, Repr

/-- `SakaiSession.LOGIN_MAX_RETRIES`. -/
def LOGIN_MAX_RETRIES : Nat := 3

/-- `SakaiSession.LOGIN_RETRY_BACKOFF` (seconds, doubles each retry). -/
def LOGIN_RETRY_BACKOFF : Nat := 30

/-- The `for attempt in range(1, LOGIN_MAX_RETRIES + 1)` loop of
`SakaiSession.login`, structural on the remaining attempt count.
A structural failure re-raises at once; a transient failure records
the cause and, when attempts remain, sleeps
`LOGIN_RETRY_BACKOFF * 2 ** (attempt - 1)` before the next attempt. -/
def loginGo (o : Nat → AttemptResult) : Nat → Nat → Option Nat → List Nat → LoginRun
  | 0, _, last, sleeps => ⟨.error (.exhausted (last.getD 0)), sleeps⟩
  | fuel + 1, attempt, _, sleeps =>
    match o attempt with
    | .success => ⟨.ok (), sleeps⟩
    | .structural => ⟨.error .structural, sleeps⟩
    | .transient c =>
      if attempt < LOGIN_MAX_RETRIES then
        loginGo o fuel (attempt + 1) (some c)
          (sleeps ++ [LOGIN_RETRY_BACKOFF * 2 ^ (attempt - 1)])
      else
        loginGo o fuel (attempt + 1) (some c) sleeps

/-- `SakaiSession.login`. -/
def login (o : Nat → AttemptResult) : LoginRun :=
  loginGo o LOGIN_MAX_RETRIES 1 none []

/-- An HTTP response, reduced to the final URL the client landed on
(`response.url` is all `get` inspects). -/
structure Response where
  url : String
deriving DecidableEq, Repr

/-- `"/xlogin" in response.url and "/portal/xlogin" not in path` —
the expiry test of `SakaiSession.get`. -/
def isExpiredRedirect (path : String) (r : Response) : Bool :=
  strContains r.url "/xlogin" && !(strContains path "/portal/xlogin")

/-- Error surfaced by `SakaiSession.get`: the not-authenticated
guard, or a `SakaiAuthError` escaping the embedded re-login. -/
inductive SessError where
  | notAuthenticated
  | auth (e : LoginErr)
deriving DecidableEq, Repr

/-- Observable outcome of one `SakaiSession.get` call: the returned
response or raised error, the `_authenticated` flag afterwards, how
many re-authentications were attempted and how many requests for the
target URL were issued. -/
structure GetOutcome where
  result : Except SessError Response
  finalAuth : Bool
  reauths : Nat
  requests : Nat
deriving DecidableEq, Repr

/-- `SakaiSession.get`: guard on `_authenticated`; issue the request;
on a redirect-to-login for a non-login path, clear `_authenticated`,
run `login` (raising its error if it fails, restoring the flag if it
succeeds) and issue the request exactly once more; return whatever
the second request yields. -/
def sessionGet (auth : Bool) (path : String) (net : Nat → Response)
    (o : Nat → AttemptResult) : GetOutcome :=
  if auth = false then ⟨.error .notAuthenticated, false, 0, 0⟩
  else
    let r1 := net 0
    if isExpiredRedirect path r1 then
      match (login o).result with
      | .error e => ⟨.error (.auth e), false, 1, 1⟩
      | .ok _ => ⟨.ok (net 1), true, 1, 2⟩
    else ⟨.ok r1, true, 0, 1⟩

/-- Session state mutated by `SakaiSession`: the `_authenticated`
flag, `_user_id`, and the cookie jar. -/
structure Sess where
  authenticated : Bool
  user_id : Option String
  cookies : List String
deriving DecidableEq, Repr

/-- `SakaiSession.logout`: when authenticated, issue the logout GET
(whose outcome `req` is discarded — a `RequestException` is swallowed
by `except ... pass`), then in the `finally` block clear the flag,
the user id and the cookies; when not authenticated, do nothing. -/
def logout (s : Sess) (req : Except Unit Unit) : Sess :=
  if s.authenticated then
    match req with
    | .error _ => ⟨false, none, []⟩
    | .ok _ => ⟨false, none, []⟩
  else s

/-- Error surfaced by a monitoring run under the context manager:
login failed on entry, or the work in between raised. -/
inductive RunErr where
  | auth
  | body
deriving DecidableEq, Repr

/-- Observable outcome of a `with SakaiSession() as s:` run. -/
structure WithRun where
  result : Except RunErr Unit
  finalState : Option Sess
  loginAttempted : Bool
  logoutAttempted : Bool
deriving DecidableEq, Repr

/-- The context manager protocol of `SakaiSession`: `__enter__` runs
`login` (propagating its failure, in which case `__exit__` never
runs), then the run's work executes (returning or raising, either
way leaving a session state), then `__exit__` runs `logout`
unconditionally and the work's outcome propagates. -/
def withSession (loginOutcome : Except Unit Sess)
    (work : Sess → Except Unit Unit × Sess)
    (logoutReq : Except Unit Unit) : WithRun :=
  match loginOutcome with
  | .error _ => ⟨.error .auth, none, true, false⟩
  | .ok s =>
    let ws := work s
    let s2 := logout ws.2 logoutReq
    match ws.1 with
    | .ok _ => ⟨.ok (), some s2, true, true⟩
    | .error _ => ⟨.error .body, some s2, true, true⟩

/-! ## Exam detector (`scrapers/exams.py`)

The date/time/location extraction heuristics run regexes and a fuzzy
date parser over the announcement body; they are parameters
`exDate exTime exLoc : String → Option String` here, quantified over
in every statement (so every theorem holds for the real heuristics
in particular). -/

/-- `Course` model from `models.py`. -/
structure Course where
  site_id : String
  code : String
  title : String
  url : String
deriving DecidableEq, Repr

/-- `ExamDetector.EXAM_KEYWORDS`. -/
def EXAM_KEYWORDS : List String :=
  ["exam", "examination", "midterm", "mid-term", "mid term",
   "final", "finals", "quiz", "quizz", "test", "assessment",
   "practical", "lab exam", "oral exam", "viva", "defense",
   "end of semester", "end-of-semester", "eos exam",
   "continuous assessment", "ca test", "ca exam"]

/-- `ExamDetector._contains_exam_keywords`. -/
def contains_exam_keywords (text : String) : Bool :=
  EXAM_KEYWORDS.any (fun keyword => strContains text keyword)

/-- Python `str.lower()` (ASCII case mapping, which is all the
keyword lexicon needs). -/
def pyLower (s : String) : String :=
  String.mk (s.data.map Char.toLower)

/-- `f"{announcement.title} {announcement.content}".lower()`. -/
def fullTextOf (a : Announcement) : String :=
  pyLower (a.title ++ " " ++ a.content)

/-- `ExamDetector._determine_exam_type`. -/
def determine_exam_type (text : String) : String :=
  if strContains text "midterm" || strContains text "mid-term"
      || strContains text "mid term" then "midterm"
  else if strContains text "final" then "final"
  else if strContains text "quiz" then "quiz"
  else if strContains text "practical" || strContains text "lab exam" then "practical"
  else if strContains text "oral" || strContains text "viva" then "oral"
  else if strContains text "continuous assessment"
      || strContains text "ca test" then "continuous_assessment"
  else "exam"

/-- `ExamDetector._detect_from_announcement`, parameterised by the
three extraction heuristics (each runs over `announcement.content`). -/
def detect_from_announcement (exDate exTime exLoc : String → Option String)
    (a : Announcement) : Option Exam :=
  let full_text := fullTextOf a
  if !contains_exam_keywords full_text then none
  else
    some ⟨"ann-" ++ a.id, a.course_code, a.course_title, a.title,
          determine_exam_type full_text,
          exDate a.content, exTime a.content, exLoc a.content,
          none, "announcement", some a.id, a.url,
          if a.content == "" then none else some (strTake a.content 300)⟩

/-- The `seen_ids` deduplication loop of `ExamDetector.scrape`: keep
each exam whose id has not been seen yet, in order. -/
def dedupGo : List Exam → List String → List Exam
  | [], _ => []
  | e :: rest, seen =>
    if e.id ∈ seen then dedupGo rest seen
    else e :: dedupGo rest (e.id :: seen)

/-- The exams detected from the announcements argument before
deduplication (`all_exams` in `scrape`; `if announcements:` skips
both `None` and the empty list). -/
def detectedExams (exDate exTime exLoc : String → Option String)
    (announcements : Option (List Announcement)) : List Exam :=
  match announcements with
  | none => []
  | some l => l.filterMap (detect_from_announcement exDate exTime exLoc)

/-- `ExamDetector.scrape`: detect from the announcements (the
`courses` argument is received but never read), then deduplicate by
exam id keeping first occurrences. -/
def scrape (_courses : List Course)
    (announcements : Option (List Announcement))
    (exDate exTime exLoc : String → Option String) : List Exam :=
  dedupGo (detectedExams exDate exTime exLoc announcements) []

end SakaiBot

/-- SHA-256 embedding validation: standard test vector for the empty
message. -/
theorem sha256_empty_vector :
    SakaiBot.bytesToHex (SakaiBot.sha256 []) =
      "e3b0c44298fc1c149afbf4c8996fb92427ae41e4649b934ca495991b7852b855" := by
  decide

/-- SHA-256 embedding validation: standard test vector for `"abc"`. -/
theorem sha256_abc_vector :
    SakaiBot.bytesToHex (SakaiBot.sha256 (SakaiBot.strBytes "abc")) =
      "ba7816bf8f01cfea414140de5dae2223b00361a396177a9cb410ff61f20015ad" := by
  decide

namespace SakaiBot

/-! ## Helper lemmas about the dedup table -/

/-- Under the `UNIQUE (dedup_key)` constraint, the lookup for the key
of a stored row returns exactly that row. -/
theorem queryByKey_eq_single (t : List SentNotification)
    (r : SentNotification) (k : String)
    (hnd : (t.map SentNotification.dedup_key).Nodup)
    (hr : r ∈ t) (hk : r.dedup_key = k) :
    queryByKey t k = [r] := by
  induction t with
  | nil => cases hr
  | cons a as ih =>
    rw [List.map_cons, List.nodup_cons] at hnd
    rcases List.mem_cons.mp hr with rfl | hmem
    · have htail : ∀ x ∈ as, ¬(x.dedup_key = k) := by
        intro x hx hxk
        exact hnd.1 (List.mem_map.mpr ⟨x, hx, hxk.trans hk.symm⟩)
      simp only [queryByKey, List.filter_cons, beq_iff_eq, hk, decide_True,
        if_true]
      rw [List.filter_eq_nil_iff.mpr (fun x hx => by simp [htail x hx])]
    · have hak : a.dedup_key ≠ k := by
        intro hak
        exact hnd.1 (List.mem_map.mpr ⟨r, hmem, by rw [hk, hak]⟩)
      simp only [queryByKey, List.filter_cons]
      rw [if_neg (by simp [hak])]
      exact ih hnd.2 hmem

/-- The replace branch of `upsert` turns every row carrying the key
into the fresh record, leaving the lookup a non-empty run of copies. -/
theorem queryByKey_map_replace (t : List SentNotification)
    (r : SentNotification) :
    queryByKey
        (t.map (fun x => if x.dedup_key == r.dedup_key then r else x))
        r.dedup_key
      = List.replicate (countKey t r.dedup_key) r := by
  induction t with
  | nil => rfl
  | cons a as ih =>
    by_cases h : a.dedup_key = r.dedup_key
    · simpa [queryByKey, countKey, List.filter_cons, h,
        List.replicate_succ] using ih
    · simpa [queryByKey, countKey, List.filter_cons, h] using ih

/-- After an `upsert`, the lookup for the record's key returns a
non-empty list all of whose rows are the fresh record. -/
theorem queryByKey_upsert (t : List SentNotification)
    (r : SentNotification) :
    ∃ n, queryByKey (upsert t r) r.dedup_key = r :: List.replicate n r := by
  unfold upsert
  by_cases h : t.any (fun x => x.dedup_key == r.dedup_key)
  · rw [if_pos h]
    rcases List.any_eq_true.mp h with ⟨x, hx, hxk⟩
    have hpos : 0 < countKey t r.dedup_key := by
      have : x ∈ t.filter (fun y => y.dedup_key == r.dedup_key) :=
        List.mem_filter.mpr ⟨hx, hxk⟩
      have := List.length_pos.mpr (List.ne_nil_of_mem this)
      simpa [countKey] using this
    obtain ⟨m, hm⟩ := Nat.exists_eq_add_of_lt hpos
    refine ⟨m, ?_⟩
    rw [queryByKey_map_replace, hm]
    simp [List.replicate, Nat.add_comm]
  · rw [if_neg h]
    have hnil : queryByKey t r.dedup_key = [] := by
      refine List.filter_eq_nil_iff.mpr (fun x hx => ?_)
      have := List.any_eq_false.mp (Bool.eq_false_iff.mpr h) x hx
      simpa using this
    refine ⟨0, ?_⟩
    show queryByKey (t ++ [r]) r.dedup_key = [r]
    unfold queryByKey at hnil ⊢
    rw [List.filter_append, hnil]
    simp

/-- Under the unique-key constraint a key occurs at most once. -/
theorem countKey_le_one (t : List SentNotification) (k : String)
    (hnd : (t.map SentNotification.dedup_key).Nodup) :
    countKey t k ≤ 1 := by
  induction t with
  | nil => simp [countKey]
  | cons a as ih =>
    rw [List.map_cons, List.nodup_cons] at hnd
    by_cases h : a.dedup_key = k
    · have htail : (as.filter (fun y => y.dedup_key == k)).length = 0 := by
        rw [List.length_eq_zero]
        refine List.filter_eq_nil_iff.mpr (fun x hx => ?_)
        simp only [beq_iff_eq, Bool.not_eq_true]
        intro hxk
        exact hnd.1 (List.mem_map.mpr ⟨x, hx, by rw [hxk, h]⟩)
      simp [countKey, List.filter_cons, h, htail]
    · simpa [countKey, List.filter_cons, h] using ih hnd.2

/-- `upsert` never changes the key column. -/
theorem upsert_map_keys (t : List SentNotification) (r : SentNotification)
    (h : t.any (fun x => x.dedup_key == r.dedup_key) = true) :
    (t.map (fun x => if x.dedup_key == r.dedup_key then r else x)).map
        SentNotification.dedup_key
      = t.map SentNotification.dedup_key := by
  rw [List.map_map]
  refine List.map_congr_left (fun x _ => ?_)
  by_cases hx : x.dedup_key = r.dedup_key
  · simp [Function.comp, hx]
  · simp [Function.comp, hx]

/-- `upsert` preserves the unique-key invariant. -/
theorem upsert_keys_nodup (t : List SentNotification) (r : SentNotification)
    (hnd : (t.map SentNotification.dedup_key).Nodup) :
    ((upsert t r).map SentNotification.dedup_key).Nodup := by
  unfold upsert
  by_cases h : t.any (fun x => x.dedup_key == r.dedup_key)
  · rw [if_pos h, upsert_map_keys t r h]
    exact hnd
  · rw [if_neg h, List.map_append, List.map_singleton]
    have hnot : r.dedup_key ∉ t.map SentNotification.dedup_key := by
      intro hmem
      rcases List.mem_map.mp hmem with ⟨x, hx, hxk⟩
      have := List.any_eq_false.mp (Bool.eq_false_iff.mpr h) x hx
      simp [hxk] at this
    refine List.nodup_append.mpr ⟨hnd, List.nodup_singleton _, ?_⟩
    intro a ha hb
    rw [List.mem_singleton] at hb
    exact hnot (hb ▸ ha)

/-- Under the unique-key invariant, after an `upsert` the record's
key is stored on exactly one row. -/
theorem upsert_countKey_eq_one (t : List SentNotification)
    (r : SentNotification)
    (hnd : (t.map SentNotification.dedup_key).Nodup) :
    countKey (upsert t r) r.dedup_key = 1 := by
  obtain ⟨n, hq⟩ := queryByKey_upsert t r
  have hcount : countKey (upsert t r) r.dedup_key = n + 1 := by
    simp [countKey, queryByKey] at hq ⊢
    simp [hq]
  have hle : countKey (upsert t r) r.dedup_key ≤ 1 :=
    countKey_le_one _ _ (upsert_keys_nodup t r hnd)
  omega

end SakaiBot

open SakaiBot in
/-- C3: For every item, `content_fingerprint` is a pure,
deterministic function of the kind-specific fields only (title+body
for announcements, title+due-date+status for assignments,
title+exam-date+exam-time for exams), equal to the first 16 hex
characters of a SHA-256 hash of those fields joined with `"|"`;
equal field values yield an equal fingerprint. -/
theorem C3_content_fingerprint :
    (∀ a : Announcement,
      a.content_hash = specFingerprint [a.title, a.content]) ∧
    (∀ g : Assignment,
      g.content_hash
        = specFingerprint [g.title, pyOptStr g.due_date, statusStr g.status]) ∧
    (∀ e : Exam,
      e.content_hash
        = specFingerprint [e.title, pyOptStr e.exam_date, pyOptStr e.exam_time]) ∧
    (∀ a b : Announcement, a.title = b.title → a.content = b.content →
      a.content_hash = b.content_hash) ∧
    (∀ g h : Assignment, g.title = h.title → g.due_date = h.due_date →
      g.status = h.status → g.content_hash = h.content_hash) ∧
    (∀ e f : Exam, e.title = f.title → e.exam_date = f.exam_date →
      e.exam_time = f.exam_time → e.content_hash = f.content_hash) := by
  refine ⟨fun a => rfl, fun g => rfl, fun e => rfl, ?_, ?_, ?_⟩
  · intro a b h1 h2
    simp [Announcement.content_hash, h1, h2]
  · intro g h h1 h2 h3
    simp [Assignment.content_hash, h1, h2, h3]
  · intro e f h1 h2 h3
    simp [Exam.content_hash, h1, h2, h3]

open SakaiBot in
set_option maxRecDepth 8192 in
/-- C3 witness: the fingerprint of a concrete announcement evaluates
to the expected digest prefix, and a second announcement with the
same title and body but different author, url and timestamp gets the
same fingerprint by the congruence part of the theorem. -/
theorem C3_content_fingerprint_witness :
    (⟨"1", "c", "ct", "T", "B", some "Ama", none, none⟩ :
        Announcement).content_hash = "44f55440c2f794c9" ∧
    (⟨"1", "c", "ct", "T", "B", some "Ama", none, none⟩ :
        Announcement).content_hash
      = (⟨"9", "c2", "ct2", "T", "B", none, some "2024", some "u"⟩ :
        Announcement).content_hash := by
  constructor
  · decide
  · exact C3_content_fingerprint.2.2.2.1 _ _ rfl rfl

open SakaiBot in
/-- C1: `has_been_sent` returns `false` when the storage layer
raises, `false` when no row carries the item's identity key, `false`
when the stored row's hash differs from the item's fingerprint, and
`true` only when a row with the key and a matching fingerprint
exists. -/
theorem C1_has_been_sent (t : List SakaiBot.SentNotification)
    (item : SakaiBot.NotifiableItem) (e : Unit) :
    (has_been_sent (.error e) item = false) ∧
    ((∀ r ∈ t, r.dedup_key ≠ item.dedup_key) →
      hasBeenSentOn t item = false) ∧
    ((t.map SentNotification.dedup_key).Nodup →
      ∀ r ∈ t, r.dedup_key = item.dedup_key →
        r.content_hash ≠ item.content_hash →
          hasBeenSentOn t item = false) ∧
    (hasBeenSentOn t item = true →
      ∃ r ∈ t, r.dedup_key = item.dedup_key
        ∧ r.content_hash = item.content_hash) := by
  refine ⟨rfl, ?_, ?_, ?_⟩
  · intro hnone
    have hq : queryByKey t item.dedup_key = [] :=
      List.filter_eq_nil_iff.mpr (fun x hx => by simp [hnone x hx])
    simp [hasBeenSentOn, hq, has_been_sent]
  · intro hnd r hr hk hhash
    have hq := queryByKey_eq_single t r item.dedup_key hnd hr hk
    simp [hasBeenSentOn, hq, has_been_sent, bne_iff_ne, hhash]
  · intro htrue
    rcases hq : queryByKey t item.dedup_key with _ | ⟨r, rest⟩
    · simp [hasBeenSentOn, hq, has_been_sent] at htrue
    · have hrmem : r ∈ queryByKey t item.dedup_key := by
        rw [hq]; exact List.mem_cons_self r rest
      have hrt : r ∈ t := List.mem_of_mem_filter hrmem
      have hrk : r.dedup_key = item.dedup_key := by
        have := List.of_mem_filter hrmem
        simpa using this
      refine ⟨r, hrt, hrk, ?_⟩
      by_contra hne
      simp [hasBeenSentOn, hq, has_been_sent, bne_iff_ne, hne] at htrue

namespace SakaiBot

/-- Concrete fixture: the announcement of the spec's end-to-end
scenario (§8). -/
def qAnn : Announcement :=
  ⟨"42", "c", "ct", "Quiz announced", "Quiz on Friday", none, none, none⟩

/-- Concrete fixture: the same announcement with an edited body. -/
def qAnnUpd : Announcement :=
  ⟨"42", "c", "ct", "Quiz announced", "Quiz moved to Monday",
   none, none, none⟩

/-- Concrete fixture: the announcement as a notifiable item. -/
def qItem : NotifiableItem := .ann qAnn

/-- Concrete fixture: the edited announcement as a notifiable item. -/
def qItemUpd : NotifiableItem := .ann qAnnUpd

/-- Concrete fixture: a stored row for the announcement's key whose
fingerprint matches no real content. -/
def staleRow : SentNotification :=
  ⟨.announcement, "announcement:42", "0000000000000000", none,
   "Quiz announced", 5⟩

end SakaiBot

open SakaiBot in
set_option maxRecDepth 8192 in
/-- C1 witness: a concrete empty table (never sent) and a concrete
table holding a mismatching fingerprint both answer `false`; the
theorem's hypotheses are discharged on those concrete inputs. -/
theorem C1_has_been_sent_witness :
    hasBeenSentOn [] qItem = false ∧
    hasBeenSentOn [staleRow] qItem = false := by
  constructor
  · exact (C1_has_been_sent [] qItem ()).2.1
      (fun r hr => absurd hr (List.not_mem_nil r))
  · exact (C1_has_been_sent [staleRow] qItem ()).2.2.1 (by decide)
      staleRow (List.mem_singleton.mpr rfl) (by decide) (by decide)

open SakaiBot in
/-- C2: an item is not "sent" before any `mark_as_sent` for its key;
immediately after `mark_as_sent`, any item with the same key and the
same fingerprint is "sent", and any item with the same key but a
different fingerprint is not. -/
theorem C2_mark_then_check (t : List SakaiBot.SentNotification)
    (i j : SakaiBot.NotifiableItem) (now : Nat) :
    ((∀ r ∈ t, r.dedup_key ≠ i.dedup_key) →
      hasBeenSentOn t i = false) ∧
    (j.dedup_key = i.dedup_key → j.content_hash = i.content_hash →
      hasBeenSentOn (mark_as_sent t i now) j = true) ∧
    (j.dedup_key = i.dedup_key → j.content_hash ≠ i.content_hash →
      hasBeenSentOn (mark_as_sent t i now) j = false) := by
  have hkey : (recordOf i now).dedup_key = i.dedup_key := rfl
  refine ⟨?_, ?_, ?_⟩
  · intro hnone
    have hq : queryByKey t i.dedup_key = [] :=
      List.filter_eq_nil_iff.mpr (fun x hx => by simp [hnone x hx])
    simp [hasBeenSentOn, hq, has_been_sent]
  · intro hk hh
    obtain ⟨n, hq⟩ := queryByKey_upsert t (recordOf i now)
    rw [hkey] at hq
    show has_been_sent
      (.ok (queryByKey (upsert t (recordOf i now)) j.dedup_key)) j = true
    rw [hk, hq]
    simp [has_been_sent, recordOf, hh]
  · intro hk hh
    obtain ⟨n, hq⟩ := queryByKey_upsert t (recordOf i now)
    rw [hkey] at hq
    have hne : ¬(i.content_hash = j.content_hash) := fun hc => hh hc.symm
    show has_been_sent
      (.ok (queryByKey (upsert t (recordOf i now)) j.dedup_key)) j = false
    rw [hk, hq]
    simp [has_been_sent, recordOf, hne]

open SakaiBot in
set_option maxRecDepth 8192 in
/-- C2 witness: on a concrete announcement, `has_been_sent` is
`false` on the empty table, `true` right after `mark_as_sent`, and
`false` again for the same announcement with an edited body. -/
theorem C2_mark_then_check_witness :
    hasBeenSentOn [] qItem = false ∧
    hasBeenSentOn (mark_as_sent [] qItem 5) qItem = true ∧
    hasBeenSentOn (mark_as_sent [] qItem 5) qItemUpd = false := by
  refine ⟨(C2_mark_then_check [] qItem qItem 5).1
      (fun r hr => absurd hr (List.not_mem_nil r)),
    (C2_mark_then_check [] qItem qItem 5).2.1 rfl rfl,
    (C2_mark_then_check [] qItem qItemUpd 5).2.2 rfl (by decide)⟩

open SakaiBot in
/-- C6: `mark_as_sent` is idempotent under retry — starting from any
table satisfying the unique-key constraint, marking two items with
the same identity key twice leaves exactly one row for that key, and
the constraint still holds. -/
theorem C6_mark_as_sent_idempotent (t : List SakaiBot.SentNotification)
    (i j : SakaiBot.NotifiableItem) (n1 n2 : Nat)
    (hnd : (t.map SentNotification.dedup_key).Nodup)
    (hk : i.dedup_key = j.dedup_key) :
    countKey (mark_as_sent (mark_as_sent t i n1) j n2) j.dedup_key = 1 ∧
    ((mark_as_sent (mark_as_sent t i n1) j n2).map
        SentNotification.dedup_key).Nodup := by
  have hnd1 : ((mark_as_sent t i n1).map SentNotification.dedup_key).Nodup :=
    upsert_keys_nodup t (recordOf i n1) hnd
  have hcount := upsert_countKey_eq_one (mark_as_sent t i n1)
    (recordOf j n2) hnd1
  have hkey : (recordOf j n2).dedup_key = j.dedup_key := rfl
  exact ⟨by rw [← hkey]; exact hcount,
    upsert_keys_nodup _ (recordOf j n2) hnd1⟩

open SakaiBot in
/-- C6 witness: two `mark_as_sent` calls for the same announcement
on the empty table leave exactly one row. -/
theorem C6_mark_as_sent_idempotent_witness :
    countKey (mark_as_sent (mark_as_sent [] qItem 5) qItem 6)
      qItem.dedup_key = 1 :=
  (C6_mark_as_sent_idempotent [] qItem qItem 5 6 List.nodup_nil rfl).1

open SakaiBot in
/-- C5: `login` raises at once on a structural/credential failure
without retrying; on connection errors and timeouts it retries up to
3 total attempts, sleeping 30 s then 60 s (base backoff, doubled),
and after 3 transient failures it raises an error wrapping the last
transient cause. -/
theorem C5_login_retry (o : Nat → SakaiBot.AttemptResult) :
    (o 1 = .success → login o = ⟨.ok (), []⟩) ∧
    (o 1 = .structural → login o = ⟨.error .structural, []⟩) ∧
    (∀ c, o 1 = .transient c → o 2 = .success →
      login o = ⟨.ok (), [30]⟩) ∧
    (∀ c, o 1 = .transient c → o 2 = .structural →
      login o = ⟨.error .structural, [30]⟩) ∧
    (∀ c1 c2, o 1 = .transient c1 → o 2 = .transient c2 → o 3 = .success →
      login o = ⟨.ok (), [30, 60]⟩) ∧
    (∀ c1 c2 c3, o 1 = .transient c1 → o 2 = .transient c2 →
      o 3 = .transient c3 →
      login o = ⟨.error (.exhausted c3), [30, 60]⟩) := by
  refine ⟨?_, ?_, ?_, ?_, ?_, ?_⟩
  · intro h1
    simp [login, loginGo, LOGIN_MAX_RETRIES, LOGIN_RETRY_BACKOFF, h1]
  · intro h1
    simp [login, loginGo, LOGIN_MAX_RETRIES, LOGIN_RETRY_BACKOFF, h1]
  · intro c h1 h2
    simp [login, loginGo, LOGIN_MAX_RETRIES, LOGIN_RETRY_BACKOFF, h1, h2]
  · intro c h1 h2
    simp [login, loginGo, LOGIN_MAX_RETRIES, LOGIN_RETRY_BACKOFF, h1, h2]
  · intro c1 c2 h1 h2 h3
    simp [login, loginGo, LOGIN_MAX_RETRIES, LOGIN_RETRY_BACKOFF, h1, h2, h3]
  · intro c1 c2 c3 h1 h2 h3
    simp [login, loginGo, LOGIN_MAX_RETRIES, LOGIN_RETRY_BACKOFF, h1, h2, h3]

open SakaiBot in
/-- C5 witness: three simulated connection resets exhaust the budget
with backoff sleeps of 30 s and 60 s and surface the wrapped last
cause; the theorem's hypotheses are discharged concretely. -/
theorem C5_login_retry_witness :
    login (fun _ => .transient 9)
      = ⟨.error (.exhausted 9), [30, 60]⟩ ∧
    login (fun _ => .structural) = ⟨.error .structural, []⟩ :=
  ⟨(C5_login_retry (fun _ => .transient 9)).2.2.2.2.2 9 9 9 rfl rfl rfl,
   (C5_login_retry (fun _ => .structural)).2.1 rfl⟩

open SakaiBot in
/-- C4 counterexample: with the session authenticated, both requests
landing on the login path and the re-login succeeding, the second
(retried) request is also an expired-session redirect, yet
`SakaiSession.get` returns that response normally (`Except.ok`, one
re-authentication, two requests) instead of surfacing an error. -/
theorem C4_counterexample :
    isExpiredRedirect "/direct/site.json"
        ((fun _ => (⟨"https://sakai.ug.edu.gh/portal/xlogin"⟩ : Response)) 1)
      = true ∧
    sessionGet true "/direct/site.json"
        (fun _ => (⟨"https://sakai.ug.edu.gh/portal/xlogin"⟩ : Response))
        (fun _ => .success)
      = ⟨.ok ⟨"https://sakai.ug.edu.gh/portal/xlogin"⟩, true, 1, 2⟩ := by
  constructor
  · decide
  · decide

open SakaiBot in
/-- C4 (amended): on a redirect-to-login for a non-login path, `get`
clears the authenticated flag, re-authenticates exactly once and
retries the original request exactly once, returning the retried
response as-is (even if it lands on the login path again — no
further retry); a failed re-authentication surfaces the error; a
response that is not such a redirect is returned directly with no
re-authentication. -/
theorem C4_session_get (path : String) (net : Nat → SakaiBot.Response)
    (o : Nat → SakaiBot.AttemptResult) :
    (sessionGet false path net o = ⟨.error .notAuthenticated, false, 0, 0⟩) ∧
    (isExpiredRedirect path (net 0) = false →
      sessionGet true path net o = ⟨.ok (net 0), true, 0, 1⟩) ∧
    (isExpiredRedirect path (net 0) = true →
      ((login o).result = .ok () →
        sessionGet true path net o = ⟨.ok (net 1), true, 1, 2⟩) ∧
      (∀ e, (login o).result = .error e →
        sessionGet true path net o = ⟨.error (.auth e), false, 1, 1⟩)) := by
  refine ⟨rfl, ?_, fun hexp => ⟨?_, ?_⟩⟩
  · intro hno
    simp [sessionGet, hno]
  · intro hok
    simp [sessionGet, hexp, hok]
  · intro e herr
    simp [sessionGet, hexp, herr]

open SakaiBot in
/-- C4 witness: a single simulated redirect-to-login with a
successful re-login gives exactly one re-authentication and one
retried request; the amended theorem's hypotheses are discharged on
that concrete scenario. -/
theorem C4_session_get_witness :
    sessionGet true "/direct/announcement/user.json"
        (fun n => if n = 0 then (⟨"https://x/portal/xlogin"⟩ : Response)
          else ⟨"https://x/direct/announcement/user.json"⟩)
        (fun _ => .success)
      = ⟨.ok ⟨"https://x/direct/announcement/user.json"⟩, true, 1, 2⟩ :=
  ((C4_session_get "/direct/announcement/user.json"
      (fun n => if n = 0 then (⟨"https://x/portal/xlogin"⟩ : Response)
        else ⟨"https://x/direct/announcement/user.json"⟩)
      (fun _ => .success)).2.2 (by decide)).1 (by decide)

open SakaiBot in
/-- C9: once the session context manager is entered, login is
attempted; when login succeeds, logout is attempted on exit whether
the work returned or raised, the run's outcome does not depend on
the logout request's outcome, the final session state is
unauthenticated, and the run's result is exactly the work's. -/
theorem C9_scoped_session (s : SakaiBot.Sess)
    (work : SakaiBot.Sess → Except Unit Unit × SakaiBot.Sess)
    (r1 r2 : Except Unit Unit) :
    ((withSession (.ok s) work r1).loginAttempted = true) ∧
    ((withSession (.ok s) work r1).logoutAttempted = true) ∧
    (withSession (.ok s) work r1 = withSession (.ok s) work r2) ∧
    (∀ s2, (withSession (.ok s) work r1).finalState = some s2 →
      s2.authenticated = false) ∧
    ((work s).1 = .ok () → (withSession (.ok s) work r1).result = .ok ()) ∧
    (∀ e, (work s).1 = .error e →
      (withSession (.ok s) work r1).result = .error .body) ∧
    (∀ s3 : SakaiBot.Sess, (logout s3 r1).authenticated = false) ∧
    (∀ e : Unit, (withSession (.error e) work r1).loginAttempted = true) := by
  have hlogout : ∀ (s3 : Sess) (r : Except Unit Unit),
      (logout s3 r).authenticated = false := by
    intro s3 r
    by_cases hA : s3.authenticated
    · cases r <;> simp [logout, hA]
    · simp only [Bool.not_eq_true] at hA
      simp [logout, hA]
  have hconst : ∀ (s3 : Sess), logout s3 r1 = logout s3 r2 := by
    intro s3
    by_cases hA : s3.authenticated
    · cases r1 <;> cases r2 <;> simp [logout, hA]
    · simp only [Bool.not_eq_true] at hA
      simp [logout, hA]
  rcases hws : work s with ⟨r, s1⟩
  refine ⟨?_, ?_, ?_, ?_, ?_, ?_, fun s3 => hlogout s3 r1, fun e => rfl⟩
  · cases r <;> simp [withSession, hws]
  · cases r <;> simp [withSession, hws]
  · cases r <;> simp [withSession, hws, hconst s1]
  · intro s2 h2
    cases r <;> simp [withSession, hws] at h2 <;>
      exact h2 ▸ hlogout s1 r1
  · intro hok
    simp at hok
    simp [withSession, hws, hok]
  · intro e herr
    simp at herr
    simp [withSession, hws, herr]

open SakaiBot in
/-- C9 witness: with a concrete authenticated state and a work body
that raises, the run still attempts logout, reports the body error
whether or not the logout request fails, and ends unauthenticated. -/
theorem C9_scoped_session_witness :
    (withSession (.ok ⟨true, some "u", ["sid"]⟩)
        (fun st => (.error (), st)) (.error ())).logoutAttempted = true ∧
    withSession (.ok (⟨true, some "u", ["sid"]⟩ : Sess))
        (fun st => (.error (), st)) (.error ())
      = withSession (.ok ⟨true, some "u", ["sid"]⟩)
        (fun st => (.error (), st)) (.ok ()) ∧
    (withSession (.ok (⟨true, some "u", ["sid"]⟩ : Sess))
        (fun st => (.error (), st)) (.error ())).result = .error .body ∧
    (logout (⟨true, some "u", ["sid"]⟩ : Sess) (.error ())).authenticated
      = false :=
  ⟨(C9_scoped_session ⟨true, some "u", ["sid"]⟩
      (fun st => (.error (), st)) (.error ()) (.ok ())).2.1,
   (C9_scoped_session ⟨true, some "u", ["sid"]⟩
      (fun st => (.error (), st)) (.error ()) (.ok ())).2.2.1,
   (C9_scoped_session ⟨true, some "u", ["sid"]⟩
      (fun st => (.error (), st)) (.error ()) (.ok ())).2.2.2.2.2.1 ()
     rfl,
   (C9_scoped_session ⟨true, some "u", ["sid"]⟩
      (fun st => (.error (), st)) (.error ()) (.ok ())).2.2.2.2.2.2.1
     ⟨true, some "u", ["sid"]⟩⟩

namespace SakaiBot

/-! ## Helper lemmas about the exam-id deduplication loop -/

/-- The exams kept by the deduplication loop have pairwise-distinct
ids, none of which was already seen. -/
theorem dedupGo_nodup_ids (l : List Exam) (seen : List String) :
    (∀ e ∈ dedupGo l seen, e.id ∉ seen) ∧
    ((dedupGo l seen).map Exam.id).Nodup := by
  induction l generalizing seen with
  | nil => simp [dedupGo]
  | cons e rest ih =>
    by_cases h : e.id ∈ seen
    · simpa [dedupGo, h] using ih seen
    · obtain ⟨ihs, ihn⟩ := ih (e.id :: seen)
      rw [dedupGo, if_neg h]
      constructor
      · intro x hx
        rcases List.mem_cons.mp hx with rfl | hx2
        · exact h
        · exact fun hxs => ihs x hx2 (List.mem_cons_of_mem _ hxs)
      · rw [List.map_cons, List.nodup_cons]
        refine ⟨?_, ihn⟩
        intro hmem
        rcases List.mem_map.mp hmem with ⟨x, hx, hxid⟩
        exact ihs x hx (hxid ▸ List.mem_cons_self e.id seen)

/-- The deduplication loop only drops elements, preserving order. -/
theorem dedupGo_sublist (l : List Exam) (seen : List String) :
    (dedupGo l seen).Sublist l := by
  induction l generalizing seen with
  | nil => simp [dedupGo]
  | cons e rest ih =>
    by_cases h : e.id ∈ seen
    · rw [dedupGo, if_pos h]
      exact (ih seen).cons e
    · rw [dedupGo, if_neg h]
      exact (ih (e.id :: seen)).cons₂ e

/-- For every id not already seen, the first exam carrying it
survives the deduplication loop as the first exam carrying it. -/
theorem dedupGo_find (l : List Exam) (seen : List String) (k : String)
    (hk : k ∉ seen) :
    (dedupGo l seen).find? (fun e => e.id == k)
      = l.find? (fun e => e.id == k) := by
  induction l generalizing seen with
  | nil => simp [dedupGo]
  | cons e rest ih =>
    by_cases h : e.id ∈ seen
    · have hbeq : (e.id == k) = false := by
        simp only [beq_eq_false_iff_ne, ne_eq]
        intro hb
        exact hk (hb ▸ h)
      simp [dedupGo, h, List.find?_cons, hbeq, ih seen hk]
    · by_cases hek : e.id = k
      · subst hek
        simp [dedupGo, h, List.find?_cons]
      · have hbeq : (e.id == k) = false := by simp [hek]
        have hk2 : k ∉ e.id :: seen := by
          intro hmem
          rcases List.mem_cons.mp hmem with h1 | h2
          · exact hek h1.symm
          · exact hk h2
        simp [dedupGo, h, List.find?_cons, hbeq, ih (e.id :: seen) hk2]

end SakaiBot

open SakaiBot in
/-- C7: the detector yields no exam exactly when the lower-cased
concatenation of title and body contains no lexicon keyword, and
exactly one exam as soon as one keyword is present — whatever the
date/time/location heuristics return (a failed extraction only
leaves the corresponding field empty and the derived id is
`ann-` + announcement id). -/
theorem C7_detect_from_announcement
    (exDate exTime exLoc : String → Option String)
    (a : SakaiBot.Announcement) :
    (contains_exam_keywords (fullTextOf a) = false →
      detect_from_announcement exDate exTime exLoc a = none) ∧
    (detect_from_announcement exDate exTime exLoc a = none →
      contains_exam_keywords (fullTextOf a) = false) ∧
    (contains_exam_keywords (fullTextOf a) = true →
      (detect_from_announcement exDate exTime exLoc a).isSome = true ∧
      ∀ e, detect_from_announcement exDate exTime exLoc a = some e →
        e.exam_date = exDate a.content ∧ e.exam_time = exTime a.content ∧
        e.location = exLoc a.content ∧ e.id = "ann-" ++ a.id) := by
  refine ⟨?_, ?_, fun hkw => ⟨?_, ?_⟩⟩
  · intro h
    simp [detect_from_announcement, h]
  · intro h
    by_contra hne
    rw [Bool.not_eq_false] at hne
    simp [detect_from_announcement, hne] at h
  · simp [detect_from_announcement, hkw]
  · intro e he
    simp [detect_from_announcement, hkw] at he
    cases he
    exact ⟨rfl, rfl, rfl, rfl⟩

open SakaiBot in
/-- C7 witness: a quiz announcement is detected (with empty
extraction heuristics all optional fields stay empty), and a
keyword-free announcement yields nothing. -/
theorem C7_detect_from_announcement_witness :
    (detect_from_announcement (fun _ => none) (fun _ => none)
        (fun _ => none) qAnn).isSome = true ∧
    detect_from_announcement (fun _ => none) (fun _ => none)
        (fun _ => none)
        (⟨"7", "c", "ct", "Hello", "Welcome to class", none, none,
          none⟩ : Announcement)
      = none :=
  ⟨((C7_detect_from_announcement (fun _ => none) (fun _ => none)
      (fun _ => none) qAnn).2.2 (by decide)).1,
   (C7_detect_from_announcement (fun _ => none) (fun _ => none)
      (fun _ => none)
      ⟨"7", "c", "ct", "Hello", "Welcome to class", none, none, none⟩).1
     (by decide)⟩

open SakaiBot in
/-- C8: `_determine_exam_type` classifies by the first matching
keyword group in the fixed priority order midterm > final > quiz >
practical/lab > oral/viva > continuous-assessment, defaulting to
`"exam"`; in particular a text matching several groups gets the
highest-priority one. -/
theorem C8_exam_type_priority (t : String) :
    ((strContains t "midterm" || strContains t "mid-term"
        || strContains t "mid term") = true →
      determine_exam_type t = "midterm") ∧
    ((strContains t "midterm" || strContains t "mid-term"
        || strContains t "mid term") = false →
      strContains t "final" = true →
      determine_exam_type t = "final") ∧
    ((strContains t "midterm" || strContains t "mid-term"
        || strContains t "mid term") = false →
      strContains t "final" = false →
      strContains t "quiz" = true →
      determine_exam_type t = "quiz") ∧
    ((strContains t "midterm" || strContains t "mid-term"
        || strContains t "mid term") = false →
      strContains t "final" = false →
      strContains t "quiz" = false →
      (strContains t "practical" || strContains t "lab exam") = true →
      determine_exam_type t = "practical") ∧
    ((strContains t "midterm" || strContains t "mid-term"
        || strContains t "mid term") = false →
      strContains t "final" = false →
      strContains t "quiz" = false →
      (strContains t "practical" || strContains t "lab exam") = false →
      (strContains t "oral" || strContains t "viva") = true →
      determine_exam_type t = "oral") ∧
    ((strContains t "midterm" || strContains t "mid-term"
        || strContains t "mid term") = false →
      strContains t "final" = false →
      strContains t "quiz" = false →
      (strContains t "practical" || strContains t "lab exam") = false →
      (strContains t "oral" || strContains t "viva") = false →
      (strContains t "continuous assessment"
        || strContains t "ca test") = true →
      determine_exam_type t = "continuous_assessment") ∧
    ((strContains t "midterm" || strContains t "mid-term"
        || strContains t "mid term") = false →
      strContains t "final" = false →
      strContains t "quiz" = false →
      (strContains t "practical" || strContains t "lab exam") = false →
      (strContains t "oral" || strContains t "viva") = false →
      (strContains t "continuous assessment"
        || strContains t "ca test") = false →
      determine_exam_type t = "exam") := by
  refine ⟨?_, ?_, ?_, ?_, ?_, ?_, ?_⟩ <;>
    intros <;> simp_all [determine_exam_type]

open SakaiBot in
/-- C8 witness: a text containing both `"final"` and `"midterm"` is
classified as `"midterm"` (the higher-priority group), and a plain
examination notice falls through to `"exam"`. -/
theorem C8_exam_type_priority_witness :
    determine_exam_type "final and midterm review" = "midterm" ∧
    determine_exam_type "examination timetable" = "exam" :=
  ⟨(C8_exam_type_priority "final and midterm review").1 (by decide),
   (C8_exam_type_priority "examination timetable").2.2.2.2.2.2
     (by decide) (by decide) (by decide) (by decide) (by decide)
     (by decide)⟩

open SakaiBot in
/-- C10: `ExamDetector.scrape` never reads its `courses` argument,
returns the empty list for `None` or empty announcements, and its
result lists pairwise-distinct exam ids, is a subsequence of the
detected exams, and keeps for every id exactly the first detected
exam carrying it. -/
theorem C10_scrape_dedup (courses courses2 : List SakaiBot.Course)
    (anns : Option (List SakaiBot.Announcement))
    (exDate exTime exLoc : String → Option String) :
    scrape courses anns exDate exTime exLoc
        = scrape courses2 anns exDate exTime exLoc ∧
    scrape courses none exDate exTime exLoc = [] ∧
    scrape courses (some []) exDate exTime exLoc = [] ∧
    ((scrape courses anns exDate exTime exLoc).map Exam.id).Nodup ∧
    (scrape courses anns exDate exTime exLoc).Sublist
      (detectedExams exDate exTime exLoc anns) ∧
    (∀ k, (scrape courses anns exDate exTime exLoc).find?
        (fun e => e.id == k)
      = (detectedExams exDate exTime exLoc anns).find?
        (fun e => e.id == k)) :=
  ⟨rfl, rfl, rfl,
   (dedupGo_nodup_ids (detectedExams exDate exTime exLoc anns) []).2,
   dedupGo_sublist (detectedExams exDate exTime exLoc anns) [],
   fun k => dedupGo_find (detectedExams exDate exTime exLoc anns) [] k
     (List.not_mem_nil k)⟩
